import Mathlib

/-!
Shallow embedding of the catalog-reconciliation core of the Hikvision
firmware archive (`common.py` and the `HikvisionScraper` methods of
`main.py`), together with theorems settling the specification claims.

Python dicts are modelled as insertion-ordered association lists
(`List (String × α)`); Python's regex searches are modelled by explicit
leftmost-match scanners over `List Char` that mirror the concrete
patterns used in the source.  The `datetime.strptime` library routine is
an external collaborator and is taken as a parameter.
-/

/-! ## Character and list utilities -/

/-- Python whitespace characters (the ASCII set matched by `str.strip`
and by the regex class `\s`). -/
def isPyWhitespace (c : Char) : Bool :=
  c == ' ' || c == '\t' || c == '\n' || c == '\r' || c == '\x0b' || c == '\x0c'

/-- Strip leading and trailing Python whitespace (`str.strip`). -/
def stripWs (l : List Char) : List Char :=
  ((l.dropWhile isPyWhitespace).reverse.dropWhile isPyWhitespace).reverse

/-- Case-sensitive: does `needle` occur at the head of `hay`? -/
def listStartsWith : List Char → List Char → Bool
  | [], _ => true
  | _ :: _, [] => false
  | x :: xs, y :: ys => x == y && listStartsWith xs ys

/-- Substring containment on character lists (Python `needle in hay`). -/
def listContains : List Char → List Char → Bool
  | [], needle => needle.isEmpty
  | c :: rest, needle => listStartsWith needle (c :: rest) || listContains rest needle

/-- Substring containment on strings (Python `needle in hay`). -/
def strContains (hay needle : String) : Bool :=
  listContains hay.toList needle.toList

/-- Case-insensitive: does `pat` occur at the head of `l`? -/
def ciStartsWith : List Char → List Char → Bool
  | [], _ => true
  | _ :: _, [] => false
  | x :: xs, y :: ys => x.toLower == y.toLower && ciStartsWith xs ys

/-- Split a character list on a separator character (Python `str.split(sep)`,
which yields `[""]` on the empty string). -/
def splitOnChar (sep : Char) : List Char → List (List Char)
  | [] => [[]]
  | c :: rest =>
    match splitOnChar sep rest with
    | h :: t => if c == sep then [] :: h :: t else (c :: h) :: t
    | [] => [[c]]

/-- Decimal digit groups of a Python `int()` literal after the sign:
digits with single underscores allowed between digits
(`int("1_0") == 10`; leading, trailing or doubled underscores fail). -/
def pyDigitsAux : Nat → List Char → Option Nat
  | acc, [] => some acc
  | acc, c :: rest =>
    if c.isDigit then pyDigitsAux (acc * 10 + (c.toNat - 48)) rest
    else if c == '_' then
      match rest with
      | d :: rest2 =>
        if d.isDigit then pyDigitsAux (acc * 10 + (d.toNat - 48)) rest2 else none
      | [] => none
    else none

/-- Digit-group body of Python `int()`: must start with a digit. -/
def pyDigits : List Char → Option Nat
  | [] => none
  | c :: rest => if c.isDigit then pyDigitsAux (c.toNat - 48) rest else none

/-- Python `int(str)`: strip whitespace, optional sign, decimal digits
(with the underscore-grouping rule); `none` models a `ValueError`. -/
def pyInt : List Char → Option Int := fun l =>
  let t := stripWs l
  match t with
  | '+' :: rest => (pyDigits rest).map Int.ofNat
  | '-' :: rest => (pyDigits rest).map (fun n => -(n : Int))
  | _ => (pyDigits t).map Int.ofNat

/-- Python `int(str)` restricted to plain decimal numerals, as an
`Option Nat`; `none` models a `ValueError`.  Device-table keys are only
ever created by the archive via `str(new_id)`, so on the reachable
domain this agrees exactly with `int()`. -/
def strToNat : String → Option Nat := fun s =>
  if s ≠ "" && s.toList.all Char.isDigit then
    some (s.toList.foldl (fun a c => a * 10 + (c.toNat - 48)) 0)
  else none

/-- Left-pad the decimal rendering of `n` with zeros to width `w`. -/
def padZeros (w n : Nat) : String :=
  let s := toString n
  String.mk (List.replicate (w - s.length) '0') ++ s

/-! ## Regex scanners

Leftmost-match models of the concrete `re` patterns of the source. -/

/-- Match of `[\s_]build[\s_]\d+` at the head of the list, returning the
length of the match (the `build` literal is case-sensitive, exactly as in
`re.sub(r'[\s_]build[\s_]\d+', ...)` of `common.parse_version`). -/
def matchBuildLen : List Char → Option Nat
  | c :: rest =>
    if isPyWhitespace c || c == '_' then
      if listStartsWith ['b', 'u', 'i', 'l', 'd'] rest then
        match rest.drop 5 with
        | d :: rest2 =>
          if isPyWhitespace d || d == '_' then
            let k := (rest2.takeWhile Char.isDigit).length
            if k > 0 then some (7 + k) else none
          else none
        | [] => none
      else none
    else none
  | [] => none

/-- `re.sub(r'[\s_]build[\s_]\d+', '', ·)`: remove every non-overlapping
leftmost match.  Fuelled by the list length (each step consumes at least
one character). -/
def subBuildAux : Nat → List Char → List Char
  | 0, l => l
  | _ + 1, [] => []
  | fuel + 1, c :: rest =>
    match matchBuildLen (c :: rest) with
    | some k => subBuildAux fuel ((c :: rest).drop k)
    | none => c :: subBuildAux fuel rest

/-- `re.sub(r'_\d{6,8}$', '', ·)`: drop a trailing underscore followed by
6–8 digits running to the end of the string.  (A trailing digit run of
another length, or one not directly preceded by an underscore, never
matches the anchored pattern.) -/
def subDateSuffix (l : List Char) : List Char :=
  let r := l.reverse
  let ds := r.takeWhile Char.isDigit
  if 6 ≤ ds.length ∧ ds.length ≤ 8 then
    match r.drop ds.length with
    | '_' :: rest => rest.reverse
    | _ => l
  else l

/-- Match of `\d+\.\d+\.\d+(?:\.\d+)?` at the head of the list (the part
after the `V` of `r'V(\d+\.\d+\.\d+(?:\.\d+)?)'`), returning the matched
characters of capture group 1. -/
def matchVerAt (l : List Char) : Option (List Char) :=
  let d1 := l.takeWhile Char.isDigit
  if d1.isEmpty then none else
  match l.drop d1.length with
  | '.' :: l2 =>
    let d2 := l2.takeWhile Char.isDigit
    if d2.isEmpty then none else
    match l2.drop d2.length with
    | '.' :: l3 =>
      let d3 := l3.takeWhile Char.isDigit
      if d3.isEmpty then none else
      let base := d1 ++ '.' :: d2 ++ '.' :: d3
      match l3.drop d3.length with
      | '.' :: l4 =>
        let d4 := l4.takeWhile Char.isDigit
        if d4.isEmpty then some base else some (base ++ '.' :: d4)
      | _ => some base
    | _ => none
  | _ => none

/-- Leftmost match of `re.search(r'V(\d+\.\d+\.\d+(?:\.\d+)?)', s, re.IGNORECASE)`,
returning capture group 1. -/
def scanVersion : List Char → Option (List Char)
  | [] => none
  | c :: rest =>
    if c == 'v' || c == 'V' then
      match matchVerAt rest with
      | some ver => some ver
      | none => scanVersion rest
    else scanVersion rest

/-- Capture group 1 of the version regex, as a string. -/
def findVersionIn (s : String) : Option String :=
  (scanVersion s.toList).map String.mk

/-- Characters of the class `[0-9A-Z-]` under `re.IGNORECASE`. -/
def isModelChar (c : Char) : Bool :=
  c.isDigit || c.isAlpha || c == '-'

/-- Match of one alternative `P[0-9A-Z-]+` (case-insensitive) at the head
of `l`, returning the matched characters in their original case. -/
def matchModelAlt (p : List Char) (l : List Char) : Option (List Char) :=
  if ciStartsWith p l then
    let run := (l.drop p.length).takeWhile isModelChar
    if run.isEmpty then none else some (l.take p.length ++ run)
  else none

/-- Alternation `DS-…|AE-…|IDS-…` tried in pattern order at one position. -/
def matchModelAt (l : List Char) : Option (List Char) :=
  match matchModelAlt ['D', 'S', '-'] l with
  | some m => some m
  | none =>
    match matchModelAlt ['A', 'E', '-'] l with
    | some m => some m
    | none => matchModelAlt ['I', 'D', 'S', '-'] l

/-- Leftmost match of
`re.search(r'(DS-[0-9A-Z-]+|AE-[0-9A-Z-]+|IDS-[0-9A-Z-]+)', s, re.IGNORECASE)`. -/
def scanModel : List Char → Option (List Char)
  | [] => none
  | c :: rest =>
    match matchModelAt (c :: rest) with
    | some m => some m
    | none => scanModel rest

/-- Model extracted from a filename, upper-cased as by
`model_match.group(1).upper()`. -/
def findModelIn (s : String) : Option String :=
  (scanModel s.toList).map (fun l => String.mk (l.map Char.toUpper))

/-- Leftmost match of `re.search(r'(\d{6}|\d{8})', s)`: the ordered
alternation takes the first six digits of the first run of at least six
consecutive digits (the 8-digit branch is kept for fidelity although the
6-digit branch always fires first). -/
def scanDate : List Char → Option (List Char)
  | [] => none
  | c :: rest =>
    let run := ((c :: rest).takeWhile Char.isDigit)
    if run.length ≥ 6 then some (run.take 6)
    else if run.length ≥ 8 then some (run.take 8)
    else scanDate rest

/-! ## common.py -/

/-- `common.load_json`: the file-system state is `none` when the file
does not exist and `some r` when it exists, with `r` the outcome of
`json.load` on its content (`Except.error` models a raised exception,
which `load_json` does not catch). -/
def load_json {α : Type} (file : Option (Except String (List (String × α)))) :
    Except String (List (String × α)) :=
  match file with
  | none => Except.ok []
  | some r => r

/-- `common.parse_version`: upper-case, delete every `V`, strip, remove
`[\s_]build[\s_]\d+` matches and a trailing `_\d{6,8}`, split on `.`,
parse each part with `int()`; any parse failure yields the sentinel
`(0, 0, 0)`. -/
def parse_version (version_str : String) : List Int :=
  let l := version_str.toList.map Char.toUpper
  let l := l.filter (fun c => c ≠ 'V')
  let l := stripWs l
  let l := subBuildAux l.length l
  let l := subDateSuffix l
  let parts := splitOnChar '.' l
  match parts.mapM pyInt with
  | some vs => vs
  | none => [0, 0, 0]

/-- Interface of `datetime.strptime` (external collaborator): given the
text and a format string, either a parsed calendar date or `none` for a
raised `ValueError`. -/
structure PyDate where
  year : Nat
  month : Nat
  day : Nat
deriving DecidableEq

/-- Type of the `datetime.strptime` collaborator. -/
abbrev Strptime : Type := String → String → Option PyDate

/-- The fixed format list tried by `common.format_date`. -/
def strptimeFormats : List String :=
  ["%Y-%m-%d", "%Y/%m/%d", "%d/%m/%Y", "%m/%d/%Y", "%Y%m%d", "%d-%m-%Y"]

/-- First format of `strptimeFormats` that parses (`datetime.strptime`
inside the `for fmt in [...]` loop with `except ValueError: continue`). -/
def firstParse (sp : Strptime) (s : String) : Option PyDate :=
  strptimeFormats.findSome? (fun fmt => sp s fmt)

/-- `dt.strftime('%Y-%m-%d')`: zero-padded canonical rendering. -/
def strftimeYmd (d : PyDate) : String :=
  padZeros 4 d.year ++ "-" ++ padZeros 2 d.month ++ "-" ++ padZeros 2 d.day

/-- `common.format_date`: empty input stays empty; an all-digit string of
length 6 (`YYMMDD`) or 8 (`YYYYMMDD`) is sliced into `YYYY-MM-DD`;
otherwise the first matching `strptime` format is re-rendered as
`YYYY-MM-DD`; if nothing matches the input is returned unchanged. -/
def format_date (sp : Strptime) (date_str : String) : String :=
  if date_str = "" then ""
  else if date_str.length = 6 ∧ date_str.toList.all Char.isDigit then
    "20" ++ date_str.take 2 ++ "-" ++ (date_str.drop 2).take 2 ++ "-" ++ (date_str.drop 4).take 2
  else if date_str.length = 8 ∧ date_str.toList.all Char.isDigit then
    date_str.take 4 ++ "-" ++ (date_str.drop 4).take 2 ++ "-" ++ (date_str.drop 6).take 2
  else
    match firstParse sp date_str with
    | some dt => strftimeYmd dt
    | none => date_str

/-- A device entry of `devices.json`. -/
structure Device where
  model : String
  hardware_version : String
deriving DecidableEq

/-- `devices.json`: insertion-ordered dict keyed by the stringified id. -/
abbrev DevTable : Type := List (String × Device)

/-- `common.get_device_id`: linear scan for the first entry whose model
and hardware version both match, returning its key as an integer.
(Python raises `ValueError` if that key is not a decimal numeral; the
archive only creates keys via `str(new_id)`, so the raise is unreachable
and the lookup is modelled on that domain.) -/
def get_device_id (devices : DevTable) (model hardware_version : String) : Option Nat :=
  (devices.find? (fun kv =>
    kv.2.model == model && kv.2.hardware_version == hardware_version)).bind
    (fun kv => strToNat kv.1)

/-- Highest integer-parseable key of the device table (`max_id` of
`common.create_device_id`, with `except ValueError: continue`). -/
def maxDeviceId (devices : DevTable) : Nat :=
  (devices.filterMap (fun kv => strToNat kv.1)).foldl max 0

/-- Set a key of an insertion-ordered dict: replace in place if present,
append if absent. -/
def dictSet {α : Type} : List (String × α) → String → α → List (String × α)
  | [], k, v => [(k, v)]
  | (k0, v0) :: rest, k, v =>
    if k0 = k then (k, v) :: rest else (k0, v0) :: dictSet rest k v

/-- `common.create_device_id`: allocate `max(100000, max_id + 1)` and
store the new device under the stringified id. -/
def create_device_id (devices : DevTable) (model hardware_version : String) :
    DevTable × Nat :=
  let new_id := max 100000 (maxDeviceId devices + 1)
  (dictSet devices (toString new_id) ⟨model, hardware_version⟩, new_id)

/-- The `get_device_id` / `create_device_id` pattern used by every ingest
site (`process_firmware`, `sync_firmwares_directory`, `sync_github_releases`):
return the existing id or create one. -/
def resolve_or_create (devices : DevTable) (model hardware_version : String) :
    DevTable × Nat :=
  match get_device_id devices model hardware_version with
  | some i => (devices, i)
  | none => create_device_id devices model hardware_version

/-- `common.is_beta_firmware`: case-insensitive indicator search in the
version or the notes. -/
def is_beta_firmware (version : String) (notes : String) : Bool :=
  let vl := String.mk (version.toList.map Char.toLower)
  let nl := String.mk (notes.toList.map Char.toLower)
  ["beta", "test", "alpha", "rc", "preview"].any
    (fun ind => strContains vl ind || strContains nl ind)

/-! ## main.py data model -/

/-- One entry of `firmwares_live.json`. -/
structure FirmwareRecord where
  device_id : Nat
  model : String
  hardware_version : String
  version : String
  date : String
  download_url : String
  filename : String
  supported_models : List String
  applied_to : String
  changes : String
  notes : String
  is_beta : Bool
  source : String
deriving DecidableEq

/-- `firmwares_live.json`: insertion-ordered dict keyed by
`"{model}_{hardware_version}_{version}"`. -/
abbrev Catalog : Type := List (String × FirmwareRecord)

/-- In-memory scraper state: the device table and the live catalog. -/
structure ScraperState where
  devices : DevTable
  firmwares_live : Catalog
deriving DecidableEq

/-- A candidate dict handed to `process_firmware`; the defaults are the
`dict.get` defaults of the source (`supported_models` defaults to
`[model]`, expressed by `none` here). -/
structure FwData where
  model : String := ""
  hardware_version : String := ""
  version : String := ""
  date : String := ""
  download_url : String := ""
  filename : String := ""
  supported_models : Option (List String) := none
  applied_to : String := ""
  changes : String := ""
  notes : String := ""
  source : String := "live"
  local_file_path : String := ""
  already_exists : Bool := false
deriving DecidableEq

/-- Identity key `f"{model}_{hw_version}_{version}"` of a candidate. -/
def fwKey (fw : FwData) : String :=
  fw.model ++ "_" ++ fw.hardware_version ++ "_" ++ fw.version

/-- `pathlib.Path(p).name`: the component after the last slash. -/
def pathName (p : String) : String :=
  String.mk ((splitOnChar '/' p.toList).getLastD [])

/-- The record literal built by `HikvisionScraper.process_firmware` when
the key is absent. -/
def mkLiveRecord (sp : Strptime) (device_id : Nat) (fw : FwData)
    (filename : String) : FirmwareRecord :=
  { device_id := device_id
    model := fw.model
    hardware_version := fw.hardware_version
    version := fw.version
    date := format_date sp fw.date
    download_url := fw.download_url
    filename := filename
    supported_models := fw.supported_models.getD [fw.model]
    applied_to := fw.applied_to
    changes := fw.changes
    notes := fw.notes
    is_beta := is_beta_firmware fw.version fw.notes
    source := fw.source }

/-- `HikvisionScraper.process_firmware`: drop candidates without both a
model and a version; drop candidates without a downloaded local file;
resolve or create the device id; then insert the record only when its
identity key is absent from the live catalog. -/
def process_firmware (sp : Strptime) (st : ScraperState) (fw : FwData) :
    ScraperState :=
  if fw.model = "" ∨ fw.version = "" then st
  else if fw.local_file_path = "" then st
  else
    let rc := resolve_or_create st.devices fw.model fw.hardware_version
    let key := fwKey fw
    if (List.lookup key st.firmwares_live).isSome then
      { st with devices := rc.1 }
    else
      let filename := if fw.filename = "" then pathName fw.local_file_path else fw.filename
      { devices := rc.1
        firmwares_live := st.firmwares_live ++ [(key, mkLiveRecord sp rc.2 fw filename)] }

/-- The `fw_data` dict built by the `add` command of `main.main`
(`args.model or ''`, `args.hw_version or 'UNKNOWN'`, …; empty strings
stand for omitted optional arguments). -/
def manualAddFwData (model hw_version version url date changes notes : String) :
    FwData :=
  { model := model
    hardware_version := if hw_version = "" then "UNKNOWN" else hw_version
    version := version
    download_url := url
    date := date
    changes := changes
    notes := notes
    source := "manual" }

/-! ## Cleanup and sync passes of main.py -/

/-- The version rescue test of `cleanup_failed_downloads`:
`version.replace('.','_') in fname.replace('.','_') or f"V{version}" in fname`. -/
def versionMatchesFile (version fname : String) : Bool :=
  strContains (String.mk (fname.toList.map (fun c => if c == '.' then '_' else c)))
      (String.mk (version.toList.map (fun c => if c == '.' then '_' else c)))
    || strContains fname ("V" ++ version)

/-- `download_url.split('/')[-1].split('?')[0]`. -/
def urlTrailingFilename (url : String) : String :=
  String.mk ((splitOnChar '?' ((splitOnChar '/' url.toList).getLastD [])).headD [])

/-- Per-record action of `HikvisionScraper.cleanup_failed_downloads`:
`none` when the key is collected for removal, otherwise the (possibly
filename-backfilled) record that is kept. -/
def cfdEntry (firmware_files : List String) (fw : FirmwareRecord) :
    Option FirmwareRecord :=
  if fw.filename ≠ "" then
    if fw.filename ∈ firmware_files then some fw
    else
      match (if fw.version ≠ "" then
               firmware_files.find? (fun fname => versionMatchesFile fw.version fname)
             else none) with
      | some fname => some { fw with filename := fname }
      | none => if fw.model = "UNKNOWN" then none else some fw
  else if fw.download_url ≠ "" then
    let url_filename := urlTrailingFilename fw.download_url
    if url_filename ≠ "" ∧ url_filename ∉ firmware_files then
      match firmware_files.find?
          (fun fname => fw.version ≠ "" && versionMatchesFile fw.version fname) with
      | some fname => some { fw with filename := fname }
      | none => none
    else some fw
  else if fw.model = "UNKNOWN" then none else some fw

/-- `HikvisionScraper.cleanup_failed_downloads`: a no-op when the
`firmwares` directory does not exist; otherwise every entry is kept
(possibly with a version-rescued filename) or deleted per `cfdEntry`. -/
def cleanup_failed_downloads (dirExists : Bool) (firmware_files : List String)
    (catalog : Catalog) : Catalog :=
  if dirExists then
    catalog.filterMap (fun kv => (cfdEntry firmware_files kv.2).map (fun r => (kv.1, r)))
  else catalog

/-- `HikvisionScraper.cleanup_unknown_entries`: remove `UNKNOWN`-model
records that came from directory sync, have no matching on-disk file and
carry neither a download URL nor an applied-to description. -/
def cleanup_unknown_entries (dirExists : Bool) (firmware_files : List String)
    (catalog : Catalog) : Catalog :=
  let eff := if dirExists then firmware_files else []
  catalog.filter (fun kv =>
    let fw := kv.2
    let has_file := fw.filename != "" && eff.contains fw.filename
    let has_useful_info := fw.download_url != "" || fw.applied_to != ""
    !(fw.model == "UNKNOWN" && fw.source == "directory_sync"
        && !has_file && !has_useful_info))

/-- Cleanup phase of `HikvisionScraper.sync_github_releases` (the loop
after the ingest loop): remove every entry whose filename claims a
GitHub-hosted artifact (`'github.com' in download_url`) that is neither
among the release asset filenames nor present in the local `firmwares`
directory. -/
def sync_releases_cleanup (release_filenames : List String) (dirExists : Bool)
    (local_files : List String) (catalog : Catalog) : Catalog :=
  catalog.filter (fun kv =>
    let fw := kv.2
    let missing_from_releases :=
      fw.filename != "" && strContains fw.download_url "github.com"
        && !(release_filenames.contains fw.filename)
    let local_file_exists := dirExists && local_files.contains fw.filename
    !(missing_from_releases && !local_file_exists))

/-- The date slicing of `sync_firmwares_directory` (lines building
`date_str` from the first `\d{6}|\d{8}` match in the filename). -/
def dateFromFilename (filename : String) : String :=
  match scanDate filename.toList with
  | some ds =>
    let d := String.mk ds
    if ds.length = 6 then
      "20" ++ d.take 2 ++ "-" ++ (d.drop 2).take 2 ++ "-" ++ (d.drop 4).take 2
    else if ds.length = 8 then
      d.take 4 ++ "-" ++ (d.drop 4).take 2 ++ "-" ++ (d.drop 6).take 2
    else ""
  | none => ""

/-- The `matched_existing` loop of `sync_firmwares_directory`: walk the
catalog in insertion order; an entry with the same filename matches
without modification; an entry whose version equals the version parsed
from the filename and whose own filename is empty is backfilled and
matches; otherwise the walk continues.  `none` means no entry matched. -/
def sfdMatchExisting (filename : String) : Catalog → Option Catalog
  | [] => none
  | kv :: rest =>
    if kv.2.filename == filename then some (kv :: rest)
    else
      match findVersionIn filename with
      | some v =>
        if kv.2.version == v then
          if kv.2.filename == "" then
            some ((kv.1, { kv.2 with filename := filename }) :: rest)
          else (sfdMatchExisting filename rest).map (kv :: ·)
        else (sfdMatchExisting filename rest).map (kv :: ·)
      | none => (sfdMatchExisting filename rest).map (kv :: ·)

/-- The record literal inserted by `sync_firmwares_directory`. -/
def mkDirSyncRecord (device_id : Nat) (model version date_str filename : String) :
    FirmwareRecord :=
  { device_id := device_id
    model := model
    hardware_version := "UNKNOWN"
    version := version
    date := date_str
    download_url := ""
    filename := filename
    supported_models := [model]
    applied_to := ""
    changes := ""
    notes := "Synced from firmware directory"
    is_beta := is_beta_firmware version ""
    source := "directory_sync" }

/-- Per-file body of the `sync_firmwares_directory` loop. -/
def sfdFile (st : ScraperState) (filename : String) : ScraperState :=
  if st.firmwares_live.any (fun kv => kv.2.filename == filename) then st
  else
    match sfdMatchExisting filename st.firmwares_live with
    | some fl => { st with firmwares_live := fl }
    | none =>
      match findVersionIn filename, findModelIn filename with
      | some version, some model =>
        let date_str := dateFromFilename filename
        let rc := resolve_or_create st.devices model "UNKNOWN"
        let key := model ++ "_" ++ "UNKNOWN" ++ "_" ++ version
        match List.lookup key st.firmwares_live with
        | some fw =>
          { devices := rc.1
            firmwares_live :=
              if fw.filename = "" then
                dictSet st.firmwares_live key { fw with filename := filename }
              else st.firmwares_live }
        | none =>
          { devices := rc.1
            firmwares_live :=
              st.firmwares_live ++ [(key, mkDirSyncRecord rc.2 model version date_str filename)] }
      | _, _ => st

/-- `HikvisionScraper.sync_firmwares_directory`: a no-op when the
`firmwares` directory does not exist; otherwise process each on-disk
firmware file in order. -/
def sync_firmwares_directory (dirExists : Bool) (firmware_files : List String)
    (st : ScraperState) : ScraperState :=
  if dirExists then firmware_files.foldl sfdFile st else st

/-! ## Concrete fixtures used by witnesses and counterexamples -/

/-- A `strptime` collaborator that parses nothing. -/
def spNone : Strptime := fun _ _ => none

/-- A `strptime` collaborator that parses exactly `"2022/08/22"` with the
format `"%Y/%m/%d"`. -/
def spAug : Strptime := fun s fmt =>
  if s = "2022/08/22" ∧ fmt = "%Y/%m/%d" then some ⟨2022, 8, 22⟩ else none

/-- The live-scraped candidate used to exercise first-writer-wins. -/
def c2fw : FwData :=
  { model := "DS-2CD2047G2"
    hardware_version := "UNKNOWN"
    version := "5.7.0"
    notes := "different notes"
    local_file_path := "firmwares/DS-2CD2047G2_V5.7.0_220822.zip" }

/-- A catalog record already present under the key of `c2fw`. -/
def c2rec : FirmwareRecord :=
  { device_id := 100000
    model := "DS-2CD2047G2"
    hardware_version := "UNKNOWN"
    version := "5.7.0"
    date := "2022-08-22"
    download_url := ""
    filename := "DS-2CD2047G2_V5.7.0_220822.zip"
    supported_models := ["DS-2CD2047G2"]
    applied_to := ""
    changes := ""
    notes := "original notes"
    is_beta := false
    source := "directory_sync" }

/-- A state in which the key of `c2fw` is already taken by `c2rec`. -/
def c2st : ScraperState :=
  ⟨[("100000", ⟨"DS-2CD2047G2", "UNKNOWN"⟩)],
   [("DS-2CD2047G2_UNKNOWN_5.7.0", c2rec)]⟩

/-- A known-model record with empty filename and a download URL whose
trailing filename matches no on-disk file. -/
def c3rec : FirmwareRecord :=
  { device_id := 100000
    model := "DS-2CD2047G2"
    hardware_version := "UNKNOWN"
    version := "5.7.0"
    date := ""
    download_url := "https://example.com/fw_a.zip"
    filename := ""
    supported_models := ["DS-2CD2047G2"]
    applied_to := ""
    changes := ""
    notes := ""
    is_beta := false
    source := "live" }

/-- A known-model record with a non-empty filename matching no file. -/
def c3keepRec : FirmwareRecord :=
  { device_id := 100000
    model := "DS-2CD2047G2"
    hardware_version := "UNKNOWN"
    version := "5.7.0"
    date := ""
    download_url := ""
    filename := "gone.zip"
    supported_models := ["DS-2CD2047G2"]
    applied_to := ""
    changes := ""
    notes := ""
    is_beta := false
    source := "live" }

/-- A known-model, live-sourced record claiming a GitHub release file. -/
def c4rec : FirmwareRecord :=
  { device_id := 100001
    model := "DS-7608NI"
    hardware_version := "NVR"
    version := "4.0.1"
    date := ""
    download_url := "https://github.com/JoeyGE0/hikvision-fw-archive/releases/latest/download/old.zip"
    filename := "old.zip"
    supported_models := ["DS-7608NI"]
    applied_to := ""
    changes := ""
    notes := ""
    is_beta := false
    source := "live" }

/-- The on-disk firmware file of the end-to-end scenario. -/
def c7file : String := "DS-2CD2047G2_V5.7.0_220822.zip"

/-- The record the end-to-end directory ingest is expected to produce. -/
def c7record : FirmwareRecord :=
  { device_id := 100000
    model := "DS-2CD2047G2"
    hardware_version := "UNKNOWN"
    version := "5.7.0"
    date := "2022-08-22"
    download_url := ""
    filename := "DS-2CD2047G2_V5.7.0_220822.zip"
    supported_models := ["DS-2CD2047G2"]
    applied_to := ""
    changes := ""
    notes := "Synced from firmware directory"
    is_beta := false
    source := "directory_sync" }

/-- A device table whose maximum allocated id is 100007. -/
def devTable100007 : DevTable := [("100007", ⟨"DS-OTHER", "V0"⟩)]

/-- An inert `UNKNOWN` placeholder from directory sync. -/
def c9rec : FirmwareRecord :=
  { device_id := 100002
    model := "UNKNOWN"
    hardware_version := "UNKNOWN"
    version := "1.0.6"
    date := "2019-10-31"
    download_url := ""
    filename := "Firmware__V1.0.6_191031.zip"
    supported_models := ["UNKNOWN"]
    applied_to := ""
    changes := ""
    notes := "Synced from firmware directory"
    is_beta := false
    source := "directory_sync" }

/-! ## Association-list dictionary lemmas -/

theorem lookup_cons {β : Type} (k a : String) (b : β) (t : List (String × β)) :
    List.lookup k ((a, b) :: t) = if k = a then some b else List.lookup k t := by
  by_cases h : k = a
  · simp [List.lookup, h]
  · have hb : (k == a) = false := beq_eq_false_iff_ne.mpr h
    simp [List.lookup, hb, h]

theorem lookup_none_of_not_mem {β : Type} (l : List (String × β)) (k : String)
    (h : k ∉ l.map Prod.fst) : List.lookup k l = none := by
  induction l with
  | nil => rfl
  | cons kv t ih =>
    obtain ⟨a, b⟩ := kv
    simp only [List.map_cons, List.mem_cons, not_or] at h
    rw [lookup_cons, if_neg h.1]
    exact ih h.2

theorem lookup_filter_none {β : Type} (l : List (String × β)) (k : String) (v : β)
    (p : String × β → Bool) (hnd : (l.map Prod.fst).Nodup)
    (hl : List.lookup k l = some v) (hp : p (k, v) = false) :
    List.lookup k (l.filter p) = none := by
  induction l with
  | nil => simp at hl
  | cons kv t ih =>
    obtain ⟨a, b⟩ := kv
    simp only [List.map_cons, List.nodup_cons] at hnd
    rw [lookup_cons] at hl
    by_cases hk : k = a
    · subst hk
      rw [if_pos rfl] at hl
      obtain rfl : b = v := by injection hl
      rw [List.filter_cons, if_neg (by simp [hp])]
      apply lookup_none_of_not_mem
      intro hmem
      exact hnd.1 (by
        obtain ⟨kv2, hkv2, hfst⟩ := List.mem_map.mp hmem
        exact List.mem_map.mpr ⟨kv2, (List.mem_filter.mp hkv2).1, hfst⟩)
    · rw [if_neg hk] at hl
      rw [List.filter_cons]
      by_cases hpa : p (a, b) = true
      · rw [if_pos hpa, lookup_cons, if_neg hk]
        exact ih hnd.2 hl
      · rw [if_neg hpa]
        exact ih hnd.2 hl

theorem lookup_filterMap_some {β : Type} (l : List (String × β)) (k : String)
    (v w : β) (f : β → Option β) (hl : List.lookup k l = some v)
    (hw : f v = some w) :
    List.lookup k (l.filterMap (fun kv => (f kv.2).map (fun r => (kv.1, r))))
      = some w := by
  induction l with
  | nil => simp at hl
  | cons kv t ih =>
    obtain ⟨a, b⟩ := kv
    rw [lookup_cons] at hl
    rw [List.filterMap_cons]
    by_cases hk : k = a
    · subst hk
      rw [if_pos rfl] at hl
      obtain rfl : b = v := by injection hl
      rw [hw]
      simp only [Option.map_some']
      rw [lookup_cons, if_pos rfl]
    · rw [if_neg hk] at hl
      cases hfb : f b with
      | none => simpa using ih hl
      | some r =>
        simp only [Option.map_some']
        rw [lookup_cons, if_neg hk]
        exact ih hl

theorem lookup_append_single {β : Type} (l : List (String × β)) (k : String)
    (v : β) (h : List.lookup k l = none) :
    List.lookup k (l ++ [(k, v)]) = some v := by
  induction l with
  | nil => simp [lookup_cons]
  | cons kv t ih =>
    obtain ⟨a, b⟩ := kv
    rw [lookup_cons] at h
    by_cases hk : k = a
    · rw [if_pos hk] at h
      exact absurd h (by simp)
    · rw [if_neg hk] at h
      rw [List.cons_append, lookup_cons, if_neg hk]
      exact ih h

theorem lookup_dictSet {β : Type} (l : List (String × β)) (k : String) (v : β) :
    List.lookup k (dictSet l k v) = some v := by
  induction l with
  | nil => simp [dictSet, lookup_cons]
  | cons kv t ih =>
    obtain ⟨a, b⟩ := kv
    by_cases h : a = k
    · rw [dictSet, if_pos h, lookup_cons, if_pos rfl]
    · rw [dictSet, if_neg h, lookup_cons, if_neg (fun hk => h hk.symm)]
      exact ih

/-! ## Claim theorems -/

/-- C5 (counterexample): loading an existing but malformed JSON document
does not return an empty catalog — `load_json` propagates the parse
exception, contrary to the claim that it is never fatal. -/
theorem load_json_malformed_counterexample :
    load_json (α := Device)
        (some (Except.error "Expecting value: line 1 column 1 (char 0)"))
      = Except.error "Expecting value: line 1 column 1 (char 0)" ∧
    load_json (α := Device)
        (some (Except.error "Expecting value: line 1 column 1 (char 0)"))
      ≠ Except.ok [] :=
  ⟨rfl, fun h => Except.noConfusion h⟩

/-- C5 (amended): a missing persisted JSON document is treated as the
empty catalog, but an existing malformed/unreadable document raises the
underlying exception to the caller (`load_json` only guards existence,
not parse failures). -/
theorem load_json_missing_gives_empty :
    load_json (α := Device) none = Except.ok [] ∧
    ∀ e : String, load_json (α := Device) (some (Except.error e)) = Except.error e :=
  ⟨rfl, fun _ => rfl⟩

/-- C6: `parse_version` handles the `V`-prefixed underscore-date form and
the garbage sentinel as claimed, but `"5.7.0 build 220123"` evaluates to
the sentinel `(0, 0, 0)` instead of the documented `(5, 7, 0)`: the
string is upper-cased to `"5.7.0 BUILD 220123"` before the
case-sensitive `build` regex is applied, so the build suffix survives
and the third segment fails to parse.  This contradicts the function's
own docstring. -/
theorem parse_version_build_divergence :
    parse_version "V5.7.0_220123" = [5, 7, 0] ∧
    parse_version "garbage" = [0, 0, 0] ∧
    parse_version "5.7.0 build 220123" = [0, 0, 0] :=
  ⟨rfl, rfl, rfl⟩

/-- C1: the `add` command of `main.main` builds its candidate dict
without any `local_file_path`, and `process_firmware` drops every
candidate whose `local_file_path` is empty before reaching the upsert —
so a manual-add invocation performs no upsert at all and leaves the
state unchanged, for every model/version/url tuple.  This contradicts
the claimed (and intended) manual-add behaviour of performing exactly
one trusted upsert with `source = manual`. -/
theorem manual_add_is_noop (sp : Strptime) (st : ScraperState)
    (model hw_version version url date changes notes : String) :
    process_firmware sp st
        (manualAddFwData model hw_version version url date changes notes) = st := by
  unfold process_firmware manualAddFwData
  simp

/-- C2: when the identity key of a candidate is already present in the
live catalog, `process_firmware` leaves the catalog (hence the existing
record, including its `notes`) completely unchanged; and ingesting the
same candidate twice from any state leaves the catalog exactly as after
the first ingestion, so there is exactly one record for the key. -/
theorem process_firmware_first_writer_wins (sp : Strptime) (fw : FwData)
    (rec : FirmwareRecord) :
    (∀ st : ScraperState,
       List.lookup (fwKey fw) st.firmwares_live = some rec →
       (process_firmware sp st fw).firmwares_live = st.firmwares_live) ∧
    (∀ st : ScraperState,
       (process_firmware sp (process_firmware sp st fw) fw).firmwares_live
         = (process_firmware sp st fw).firmwares_live) := by
  have hA : ∀ st : ScraperState,
      (List.lookup (fwKey fw) st.firmwares_live).isSome = true →
      (process_firmware sp st fw).firmwares_live = st.firmwares_live := by
    intro st h
    unfold process_firmware
    by_cases c1 : fw.model = "" ∨ fw.version = ""
    · rw [if_pos c1]
    · rw [if_neg c1]
      by_cases c2 : fw.local_file_path = ""
      · rw [if_pos c2]
      · rw [if_neg c2]
        simp only [h, if_pos]
  refine ⟨fun st h => hA st (by rw [h]; rfl), fun st => ?_⟩
  by_cases c1 : fw.model = "" ∨ fw.version = ""
  · unfold process_firmware
    rw [if_pos c1, if_pos c1]
  · by_cases c2 : fw.local_file_path = ""
    · unfold process_firmware
      rw [if_neg c1, if_pos c2, if_neg c1, if_pos c2]
    · cases hl : List.lookup (fwKey fw) st.firmwares_live with
      | some r =>
        apply hA
        have h1 : (process_firmware sp st fw).firmwares_live = st.firmwares_live := by
          unfold process_firmware
          rw [if_neg c1, if_neg c2]
          simp only [hl, Option.isSome_some, if_pos]
        rw [h1, hl]
        rfl
      | none =>
        apply hA
        have h1 : (process_firmware sp st fw).firmwares_live
            = st.firmwares_live ++ [(fwKey fw,
                mkLiveRecord sp (resolve_or_create st.devices fw.model fw.hardware_version).2 fw
                  (if fw.filename = "" then pathName fw.local_file_path else fw.filename))] := by
          unfold process_firmware
          rw [if_neg c1, if_neg c2]
          simp [hl]
        rw [h1, lookup_append_single _ _ _ hl]
        rfl

/-- C2 witness: a concrete state whose catalog already holds the key of
`c2fw` with different notes is left unchanged by one more ingestion. -/
theorem process_firmware_first_writer_wins_witness :
    (process_firmware spNone c2st c2fw).firmwares_live = c2st.firmwares_live :=
  (process_firmware_first_writer_wins spNone c2fw c2rec).1 c2st (by rfl)

/-- C8: resolve-or-create returns the existing id whenever the
(model, hardware_version) pair is found; otherwise it allocates
`max(100000, max_existing_id + 1)`, stores the new device under that
stringified id, and returns it — allocating `100000` on an empty table
and `100008` on a table whose maximum id is `100007`. -/
theorem resolve_or_create_spec :
    (∀ (devices : DevTable) (m hw : String) (i : Nat),
       get_device_id devices m hw = some i →
       resolve_or_create devices m hw = (devices, i)) ∧
    (∀ (devices : DevTable) (m hw : String),
       get_device_id devices m hw = none →
       (resolve_or_create devices m hw).2 = max 100000 (maxDeviceId devices + 1) ∧
       List.lookup (toString (max 100000 (maxDeviceId devices + 1)))
           (resolve_or_create devices m hw).1 = some ⟨m, hw⟩) ∧
    (∀ m hw : String, (resolve_or_create [] m hw).2 = 100000) ∧
    (∀ m hw : String, get_device_id devTable100007 m hw = none →
       (resolve_or_create devTable100007 m hw).2 = 100008) := by
  refine ⟨?_, ?_, ?_, ?_⟩
  · intro devices m hw i h
    unfold resolve_or_create
    rw [h]
  · intro devices m hw h
    unfold resolve_or_create
    rw [h]
    exact ⟨rfl, lookup_dictSet _ _ _⟩
  · intro m hw
    rfl
  · intro m hw h
    unfold resolve_or_create
    rw [h]
    rfl

/-- C8 witness: a present pair returns its id unchanged; an absent pair
on a table whose maximum id is 100007 allocates 100008. -/
theorem resolve_or_create_spec_witness :
    resolve_or_create devTable100007 "DS-OTHER" "V0" = (devTable100007, 100007) ∧
    (resolve_or_create devTable100007 "DS-2CD2047G2" "UNKNOWN").2 = 100008 :=
  ⟨resolve_or_create_spec.1 devTable100007 "DS-OTHER" "V0" 100007 (by rfl),
   resolve_or_create_spec.2.2.2 "DS-2CD2047G2" "UNKNOWN" (by rfl)⟩

/-- C9: the placeholder cleanup pass deletes every record whose model is
`UNKNOWN`, whose source is `directory_sync`, whose download URL and
applied-to text are empty, and whose filename matches no file of the
on-disk firmware directory. -/
theorem cleanup_unknown_entries_removes (dirExists : Bool)
    (firmware_files : List String) (catalog : Catalog) (key : String)
    (rec : FirmwareRecord)
    (hnd : (catalog.map Prod.fst).Nodup)
    (hl : List.lookup key catalog = some rec)
    (hm : rec.model = "UNKNOWN")
    (hs : rec.source = "directory_sync")
    (hu : rec.download_url = "")
    (ha : rec.applied_to = "")
    (hf : ((if dirExists then firmware_files else []).contains rec.filename) = false) :
    List.lookup key (cleanup_unknown_entries dirExists firmware_files catalog) = none := by
  unfold cleanup_unknown_entries
  apply lookup_filter_none _ _ _ _ hnd hl
  have hf2 : rec.filename ∉ (if dirExists then firmware_files else []) := by
    simpa using hf
  simp only [hm, hs, hu, ha]
  simp
  intro _ hd
  subst hd
  simpa using hf2

/-- C9 witness: a concrete inert placeholder is removed when the
directory holds no matching file. -/
theorem cleanup_unknown_entries_removes_witness :
    List.lookup "UNKNOWN_UNKNOWN_1.0.6"
        (cleanup_unknown_entries true ["present.zip"]
          [("UNKNOWN_UNKNOWN_1.0.6", c9rec)]) = none :=
  cleanup_unknown_entries_removes true ["present.zip"]
    [("UNKNOWN_UNKNOWN_1.0.6", c9rec)] "UNKNOWN_UNKNOWN_1.0.6" c9rec
    (by decide) (by rfl) rfl rfl rfl rfl (by decide)

/-- C4: the cleanup phase of the releases sync pass deletes every record
with a non-empty filename and a download URL containing `github.com`
whose filename is neither among the release asset names nor present in
the local firmwares directory — with no condition on the record's model
or source. -/
theorem sync_releases_cleanup_removes (release_filenames : List String)
    (dirExists : Bool) (local_files : List String) (catalog : Catalog)
    (key : String) (rec : FirmwareRecord)
    (hnd : (catalog.map Prod.fst).Nodup)
    (hl : List.lookup key catalog = some rec)
    (hfn : rec.filename ≠ "")
    (hgh : strContains rec.download_url "github.com" = true)
    (hnr : release_filenames.contains rec.filename = false)
    (hnl : (dirExists && local_files.contains rec.filename) = false) :
    List.lookup key
        (sync_releases_cleanup release_filenames dirExists local_files catalog)
      = none := by
  unfold sync_releases_cleanup
  apply lookup_filter_none _ _ _ _ hnd hl
  simp [hgh, bne_iff_ne, hfn]
  refine ⟨by simpa using hnr, fun hd => ?_⟩
  subst hd
  simpa using hnl

/-- C4 witness: a known-model, live-sourced record pointing at a GitHub
release asset that no longer exists (and is absent locally) is removed. -/
theorem sync_releases_cleanup_removes_witness :
    List.lookup "DS-7608NI_NVR_4.0.1"
        (sync_releases_cleanup ["other.zip"] true ["another.zip"]
          [("DS-7608NI_NVR_4.0.1", c4rec)]) = none :=
  sync_releases_cleanup_removes ["other.zip"] true ["another.zip"]
    [("DS-7608NI_NVR_4.0.1", c4rec)] "DS-7608NI_NVR_4.0.1" c4rec
    (by decide) (by rfl) (by decide) (by decide) (by decide) (by decide)

/-- Records with a known model survive `cfdEntry` whenever they carry a
non-empty filename, or carry neither filename nor download URL. -/
theorem cfdEntry_keeps (files : List String) (rec : FirmwareRecord)
    (hm : rec.model ≠ "UNKNOWN")
    (hor : rec.filename ≠ "" ∨ rec.download_url = "") :
    ∃ r, cfdEntry files rec = some r := by
  unfold cfdEntry
  by_cases h1 : rec.filename ≠ ""
  · rw [if_pos h1]
    by_cases h2 : rec.filename ∈ files
    · rw [if_pos h2]
      exact ⟨rec, rfl⟩
    · rw [if_neg h2]
      cases hfind : (if rec.version ≠ "" then
          files.find? (fun fname => versionMatchesFile rec.version fname)
        else none) with
      | some fname =>
        exact ⟨_, rfl⟩
      | none =>
        refine ⟨rec, ?_⟩
        show (if rec.model = "UNKNOWN" then none else some rec) = some rec
        rw [if_neg hm]
  · rw [if_neg h1]
    have hu : rec.download_url = "" := hor.resolve_left h1
    rw [if_neg (fun hc => hc hu), if_neg hm]
    exact ⟨rec, rfl⟩

/-- C3 (counterexample): the missing-evidence cleanup pass deletes a
record whose model is not `UNKNOWN`: with no on-disk files, a
known-model record with empty `filename` and a `download_url` whose
trailing filename matches nothing is removed by
`cleanup_failed_downloads` (the URL fallback branch has no model
guard). -/
theorem cleanup_failed_downloads_deletes_known_model :
    c3rec.model = "DS-2CD2047G2" ∧
    cleanup_failed_downloads true [] [("DS-2CD2047G2_UNKNOWN_5.7.0", c3rec)] = [] :=
  ⟨rfl, by decide⟩

/-- C3 (amended): the missing-evidence cleanup pass never deletes a
record with `model != "UNKNOWN"` provided the record has a non-empty
`filename`, or has both `filename` and `download_url` empty; a
known-model record with empty filename but a non-empty download URL
whose trailing filename and version match no on-disk file is deleted. -/
theorem cleanup_failed_downloads_keeps_known_model (dirExists : Bool)
    (firmware_files : List String) (catalog : Catalog) (key : String)
    (rec : FirmwareRecord)
    (hl : List.lookup key catalog = some rec)
    (hm : rec.model ≠ "UNKNOWN")
    (hor : rec.filename ≠ "" ∨ rec.download_url = "") :
    ∃ r, List.lookup key
        (cleanup_failed_downloads dirExists firmware_files catalog) = some r := by
  cases dirExists with
  | false => exact ⟨rec, by simpa [cleanup_failed_downloads] using hl⟩
  | true =>
    obtain ⟨r, hr⟩ := cfdEntry_keeps firmware_files rec hm hor
    refine ⟨r, ?_⟩
    unfold cleanup_failed_downloads
    rw [if_pos rfl]
    exact lookup_filterMap_some _ _ _ _ _ hl hr

/-- C3 witness: a known-model record with a non-empty filename matching
no on-disk file survives the pass. -/
theorem cleanup_failed_downloads_keeps_known_model_witness :
    (List.lookup "DS-2CD2047G2_UNKNOWN_5.7.0"
        (cleanup_failed_downloads true []
          [("DS-2CD2047G2_UNKNOWN_5.7.0", c3keepRec)])).isSome = true := by
  obtain ⟨r, hr⟩ := cleanup_failed_downloads_keeps_known_model true []
    [("DS-2CD2047G2_UNKNOWN_5.7.0", c3keepRec)] "DS-2CD2047G2_UNKNOWN_5.7.0"
    c3keepRec (by rfl) (by decide) (Or.inl (by decide))
  rw [hr]
  rfl

/-- C7: from an empty catalog and empty device table, one directory
ingest run over the single on-disk file `DS-2CD2047G2_V5.7.0_220822.zip`
produces exactly the record keyed `DS-2CD2047G2_UNKNOWN_5.7.0` with date
`2022-08-22`, the filename set, and source `directory_sync`, under the
freshly allocated device `100000`; a second run on the resulting state
changes neither the catalog nor the device table. -/
theorem sync_firmwares_directory_scenario :
    sync_firmwares_directory true [c7file] ⟨[], []⟩ =
      ⟨[("100000", ⟨"DS-2CD2047G2", "UNKNOWN"⟩)],
       [("DS-2CD2047G2_UNKNOWN_5.7.0", c7record)]⟩ ∧
    sync_firmwares_directory true [c7file]
        (sync_firmwares_directory true [c7file] ⟨[], []⟩) =
      sync_firmwares_directory true [c7file] ⟨[], []⟩ :=
  ⟨by decide, by decide⟩

/-- C10: `format_date` returns the empty string on empty input, slices a
6-digit all-digit string `YYMMDD` into `20YY-MM-DD` and an 8-digit
all-digit string `YYYYMMDD` into `YYYY-MM-DD`, re-renders any other
string parsed by one of the fixed delimited `strptime` formats as
canonical `YYYY-MM-DD`, and returns the input unchanged when no format
matches; in particular `format_date "220822" = "2022-08-22"` and
`format_date "20220822" = "2022-08-22"` for every `strptime`
collaborator. -/
theorem format_date_spec :
    (∀ sp : Strptime, format_date sp "" = "") ∧
    (∀ (sp : Strptime) (s : String), s.length = 6 → s.toList.all Char.isDigit = true →
       format_date sp s =
         "20" ++ s.take 2 ++ "-" ++ (s.drop 2).take 2 ++ "-" ++ (s.drop 4).take 2) ∧
    (∀ (sp : Strptime) (s : String), s.length = 8 → s.toList.all Char.isDigit = true →
       format_date sp s =
         s.take 4 ++ "-" ++ (s.drop 4).take 2 ++ "-" ++ (s.drop 6).take 2) ∧
    (∀ (sp : Strptime) (s : String) (dt : PyDate), s ≠ "" →
       ¬(s.length = 6 ∧ s.toList.all Char.isDigit = true) →
       ¬(s.length = 8 ∧ s.toList.all Char.isDigit = true) →
       firstParse sp s = some dt → format_date sp s = strftimeYmd dt) ∧
    (∀ (sp : Strptime) (s : String), s ≠ "" →
       ¬(s.length = 6 ∧ s.toList.all Char.isDigit = true) →
       ¬(s.length = 8 ∧ s.toList.all Char.isDigit = true) →
       firstParse sp s = none → format_date sp s = s) ∧
    (∀ sp : Strptime, format_date sp "220822" = "2022-08-22") ∧
    (∀ sp : Strptime, format_date sp "20220822" = "2022-08-22") := by
  refine ⟨fun sp => rfl, ?_, ?_, ?_, ?_, fun sp => rfl, fun sp => rfl⟩
  · intro sp s h6 hd
    have hne : ¬(s = "") := by
      intro he
      rw [he] at h6
      exact absurd h6 (by decide)
    unfold format_date
    rw [if_neg hne, if_pos ⟨h6, hd⟩]
  · intro sp s h8 hd
    have hne : ¬(s = "") := by
      intro he
      rw [he] at h8
      exact absurd h8 (by decide)
    have h6 : ¬(s.length = 6 ∧ s.toList.all Char.isDigit = true) := by
      intro hc
      rw [h8] at hc
      exact absurd hc.1 (by decide)
    unfold format_date
    rw [if_neg hne, if_neg h6, if_pos ⟨h8, hd⟩]
  · intro sp s dt hne h6 h8 hp
    unfold format_date
    rw [if_neg hne, if_neg h6, if_neg h8, hp]
  · intro sp s hne h6 h8 hp
    unfold format_date
    rw [if_neg hne, if_neg h6, if_neg h8, hp]

/-- C10 witness: a non-matching string passes through unchanged, and a
slash-delimited date parsed by the `%Y/%m/%d` collaborator is re-rendered
canonically. -/
theorem format_date_spec_witness :
    format_date spNone "not-a-date" = "not-a-date" ∧
    format_date spAug "2022/08/22" = "2022-08-22" :=
  ⟨format_date_spec.2.2.2.2.1 spNone "not-a-date" (by decide) (by decide)
      (by decide) rfl,
   (format_date_spec.2.2.2.1 spAug "2022/08/22" ⟨2022, 8, 22⟩ (by decide)
      (by decide) (by decide) (by rfl)).trans (by rfl)⟩
